import Mathlib

/-!
Shallow embedding of the simulation core of `race_game.c` (a lane-based
arcade racer for the Flipper Zero) and proofs about it.

The embedding models the game state (`RaceGameState`), the per-tick update
(`game_tick`) and its phases exactly as the C source computes them:

* `uint8_t` fields (`lives`, `level`, `combo`, timer counters) are `Nat`
  with arithmetic reduced `% 256` wherever the C arithmetic can wrap;
* `uint32_t` fields (`score`, `tick_count`) are `Nat` reduced `% 2^32`;
* `int8_t` / `int16_t` fields (lanes, vertical offsets) are `Int`
  (the C program keeps them far away from their representation bounds);
* `rand()` is an oracle: every call site of `rand()` inside one tick reads
  a dedicated component of a `TickRng` record, so theorems quantify over
  all possible random draws;
* external effects are mirrored into the state: `furi_timer_start` /
  `furi_timer_stop` toggle `timer_running`, and the high-score file is the
  `persisted_high` field (written exactly where `save_high_score` writes
  the file).

Rendering, sound and input plumbing have no gameplay logic and are not
modelled.
-/

namespace RaceGame

-- ── Layout constants (the C `#define`s) ────────────────────────────────

def SCREEN_W : Int := 64
def SCREEN_H : Int := 128
def ROAD_LEFT : Int := 10
def ROAD_RIGHT : Int := 53
def ROAD_WIDTH : Int := ROAD_RIGHT - ROAD_LEFT
def LANE_COUNT : Int := 3
def LANE_WIDTH : Int := ROAD_WIDTH / LANE_COUNT
def CAR_W : Int := 10
def CAR_H : Int := 13
def PLAYER_Y : Int := 105
def MAX_OBS : Nat := 5
def MAX_COINS : Nat := 3
def MAX_POWERUPS : Nat := 2
def MAX_SCENERY : Nat := 6
def MAX_PARTICLES : Nat := 12
def INITIAL_LIVES : Nat := 3
def MAX_LIVES : Nat := 5
def DASH_TOTAL : Int := 16

/-- Modulus of `uint8_t` arithmetic. -/
def U8 : Nat := 256

/-- Modulus of `uint32_t` arithmetic. -/
def U32 : Nat := 4294967296

-- ── Types ──────────────────────────────────────────────────────────────

inductive GameState where
  | menu
  | playing
  | gameOver
deriving DecidableEq, Repr

/-- `ObsType`: 0 = narrow/fast moto, 1 = normal sedan, 2 = boss truck. -/
inductive ObsType where
  | moto
  | sedan
  | truck
deriving DecidableEq, Repr

inductive PowerUpType where
  | shield
  | magnet
  | fuel
deriving DecidableEq, Repr

inductive Difficulty where
  | easy
  | normal
  | hard
deriving DecidableEq, Repr

structure Obstacle where
  lane : Int
  y : Int
  alive : Bool
  type : ObsType
deriving DecidableEq, Repr

structure Coin where
  lane : Int
  y : Int
  alive : Bool
deriving DecidableEq, Repr

structure PowerUp where
  lane : Int
  y : Int
  alive : Bool
  type : PowerUpType
deriving DecidableEq, Repr

structure Scenery where
  y : Int
  side : Nat
  type : Nat
deriving DecidableEq, Repr

structure Particle where
  x : Int
  y : Int
  dx : Int
  dy : Int
  life : Nat
deriving DecidableEq, Repr

structure RaceGameState where
  state : GameState
  player_lane : Int
  score : Nat
  high_score : Nat
  level : Nat
  lives : Nat
  speed : Nat
  tick_count : Nat
  road_scroll : Int
  night_mode : Bool
  sound_on : Bool
  menu_idx : Int
  difficulty : Difficulty
  invincible_ticks : Nat
  shield_ticks : Nat
  magnet_ticks : Nat
  combo : Nat
  combo_display : Nat
  obstacles : List Obstacle
  coins : List Coin
  powerups : List PowerUp
  scenery : List Scenery
  particles : List Particle
  timer_running : Bool
  persisted_high : Nat
deriving DecidableEq, Repr

/-- Oracle for every `rand()` call site reachable within one tick.
Indexed components serve the call sites that occur once per pool slot. -/
structure TickRng where
  scY : Nat → Nat
  scSide : Nat → Nat
  scType : Nat → Nat
  obsLane : Nat
  obsBoss : Nat
  obsCls : Nat
  coinLane : Nat
  pwLane : Nat
  pwType : Nat
  pDx : Nat → Nat
  pDy : Nat → Nat
  pLife : Nat → Nat

-- ── Difficulty settings ────────────────────────────────────────────────

def diff_speed : Difficulty → Nat
  | .easy => 140
  | .normal => 120
  | .hard => 90

def diff_min_speed : Difficulty → Nat
  | .easy => 70
  | .normal => 50
  | .hard => 35

def diff_spawn : Difficulty → Nat
  | .easy => 15
  | .normal => 12
  | .hard => 9

-- ── Helpers ────────────────────────────────────────────────────────────

def lane_cx (lane : Int) : Int := ROAD_LEFT + LANE_WIDTH / 2 + lane * LANE_WIDTH

def car_lx (lane : Int) : Int := lane_cx lane - CAR_W / 2

-- ── Particles ──────────────────────────────────────────────────────────

/-- `spawn_particles`: a burst fully overwrites all `MAX_PARTICLES` slots,
placing every particle at `(cx, cy)` with random velocity and life. -/
def spawn_particles (r : TickRng) (cx cy : Int) : List Particle :=
  (List.range MAX_PARTICLES).map fun i =>
    { x := cx
      y := cy
      dx := ((r.pDx i % 7 : Nat) : Int) - 3
      dy := ((r.pDy i % 7 : Nat) : Int) - 3
      life := 8 + r.pLife i % 5 }

def update_particles (ps : List Particle) : List Particle :=
  ps.map fun p =>
    if p.life > 0 then { p with x := p.x + p.dx, y := p.y + p.dy, life := p.life - 1 }
    else p

-- ── Scenery ────────────────────────────────────────────────────────────

def move_scenery_item (r : TickRng) (i : Nat) (sc : Scenery) : Scenery :=
  let y' := sc.y + 2
  if y' > SCREEN_H + 5 then
    { y := -((r.scY i % 20 : Nat) : Int), side := r.scSide i % 2, type := r.scType i % 2 }
  else
    { sc with y := y' }

def init_scenery (r : TickRng) (sc : List Scenery) : List Scenery :=
  sc.enum.map fun q =>
    { y := ((r.scY q.1 % 128 : Nat) : Int), side := r.scSide q.1 % 2, type := r.scType q.1 % 2 }

-- ── Collision ──────────────────────────────────────────────────────────

/-- Per-class obstacle hitbox `(ox, ow, oh)` exactly as `check_collision`
computes it: trucks are 20 px wide starting 5 px left of the lane box,
motos are 6 px wide inset 2 px, sedans match the 10 px car box. -/
def obs_hitbox (o : Obstacle) : Int × Int × Int :=
  match o.type with
  | .truck => (car_lx o.lane - 5, 20, 16)
  | .moto => (car_lx o.lane + 2, 6, 10)
  | .sedan => (car_lx o.lane, CAR_W, 12)

def hits_player (pl : Int) (o : Obstacle) : Bool :=
  o.alive &&
    (let px := car_lx pl
     let ox := (obs_hitbox o).1
     let ow := (obs_hitbox o).2.1
     let oh := (obs_hitbox o).2.2
     decide (px < ox + ow) && decide (px + CAR_W > ox) &&
       decide (PLAYER_Y < o.y + oh) && decide (PLAYER_Y + CAR_H > o.y))

def check_collision (s : RaceGameState) : Bool :=
  s.obstacles.any (hits_player s.player_lane)

-- ── Coin / power-up collection ─────────────────────────────────────────

/-- Player-vs-coin 8x8 overlap test from `check_collections`. -/
def coin_touch (pl : Int) (c : Coin) : Bool :=
  let px := car_lx pl
  let cx := car_lx c.lane
  decide (px < cx + 8) && decide (px + CAR_W > cx) &&
    decide (PLAYER_Y < c.y + 8) && decide (PLAYER_Y + CAR_H > c.y)

/-- Magnet attraction gate: magnet active and vertical distance under 30. -/
def magnet_range (magnet : Nat) (c : Coin) : Bool :=
  decide (magnet > 0) && decide ((c.y - PLAYER_Y).natAbs < 30)

/-- One magnet pull: 4 px vertically toward the player's row, one lane
step toward the player's lane. -/
def pull_coin (pl : Int) (c : Coin) : Coin :=
  { c with
    y := c.y + (if c.y < PLAYER_Y then 4 else -4)
    lane :=
      if c.lane < pl then c.lane + 1
      else if c.lane > pl then c.lane - 1
      else c.lane }

/-- Processing of one coin slot inside the `check_collections` loop.
Threads `(combo, combo_display, score)` through the loop. -/
def process_coin (pl : Int) (magnet : Nat) (c : Coin) (combo cd score : Nat) :
    Coin × Nat × Nat × Nat :=
  if !c.alive then (c, combo, cd, score)
  else
    let mp := magnet_range magnet c
    let touch := coin_touch pl c
    if touch || mp then
      if mp && !touch then (pull_coin pl c, combo, cd, score)
      else
        let combo' := (combo + 1) % U8
        let pts := 25 * (if combo' > 1 then combo' else 1)
        ({ c with alive := false }, combo', 15, (score + pts) % U32)
    else (c, combo, cd, score)

def process_coins (pl : Int) (magnet : Nat) :
    List Coin → Nat → Nat → Nat → List Coin × Nat × Nat × Nat
  | [], combo, cd, score => ([], combo, cd, score)
  | c :: cs, combo, cd, score =>
    let r1 := process_coin pl magnet c combo cd score
    let rs := process_coins pl magnet cs r1.2.1 r1.2.2.1 r1.2.2.2
    (r1.1 :: rs.1, rs.2)

/-- Player-vs-power-up 8x8 overlap test from `check_collections`. -/
def pw_touch (pl : Int) (p : PowerUp) : Bool :=
  let px := car_lx pl
  let ppx := car_lx p.lane
  decide (px < ppx + 8) && decide (px + CAR_W > ppx) &&
    decide (PLAYER_Y < p.y + 8) && decide (PLAYER_Y + CAR_H > p.y)

/-- Processing of one power-up slot: shield sets the shield timer to 50,
magnet sets the magnet timer to 60, fuel adds a life capped at
`MAX_LIVES`. Threads `(lives, shield_ticks, magnet_ticks)`. -/
def process_powerup (pl : Int) (p : PowerUp) (lives shield magnet : Nat) :
    PowerUp × Nat × Nat × Nat :=
  if !p.alive then (p, lives, shield, magnet)
  else if pw_touch pl p then
    let p' := { p with alive := false }
    match p.type with
    | .shield => (p', lives, 50, magnet)
    | .magnet => (p', lives, shield, 60)
    | .fuel => (p', if lives < MAX_LIVES then lives + 1 else lives, shield, magnet)
  else (p, lives, shield, magnet)

def process_powerups (pl : Int) :
    List PowerUp → Nat → Nat → Nat → List PowerUp × Nat × Nat × Nat
  | [], lives, shield, magnet => ([], lives, shield, magnet)
  | p :: ps, lives, shield, magnet =>
    let r1 := process_powerup pl p lives shield magnet
    let rs := process_powerups pl ps r1.2.1 r1.2.2.1 r1.2.2.2
    (r1.1 :: rs.1, rs.2)

/-- `check_collections`: the coin loop runs first (reading the magnet
timer as decremented at the top of the tick), then the power-up loop. -/
def check_collections (s : RaceGameState) : RaceGameState :=
  let cres := process_coins s.player_lane s.magnet_ticks s.coins s.combo s.combo_display s.score
  let pres := process_powerups s.player_lane s.powerups s.lives s.shield_ticks s.magnet_ticks
  { s with
    coins := cres.1
    combo := cres.2.1
    combo_display := cres.2.2.1
    score := cres.2.2.2
    powerups := pres.1
    lives := pres.2.1
    shield_ticks := pres.2.2.1
    magnet_ticks := pres.2.2.2 }

-- ── Spawning ───────────────────────────────────────────────────────────

/-- First-free-slot allocation shared by the three spawn functions: the
new entity replaces the first slot whose alive flag is clear; a full pool
is left untouched. -/
def alloc_first_free {α : Type} (isAlive : α → Bool) (new : α) : List α → List α
  | [] => []
  | x :: xs => if isAlive x then x :: alloc_first_free isAlive new xs else new :: xs

/-- The obstacle written by `spawn_obstacle`: boss truck (forced to the
center lane) only when the level is a positive multiple of 5 and the
1-in-4 draw hits; otherwise moto on a 1-in-3 draw, else sedan. -/
def mk_obstacle (level : Nat) (r : TickRng) : Obstacle :=
  let lane : Int := ((r.obsLane % 3 : Nat) : Int)
  if 0 < level ∧ level % 5 = 0 ∧ r.obsBoss % 4 = 0 then
    { lane := 1, y := -18, alive := true, type := .truck }
  else if r.obsCls % 3 = 0 then
    { lane := lane, y := -18, alive := true, type := .moto }
  else
    { lane := lane, y := -18, alive := true, type := .sedan }

def spawn_obstacle (s : RaceGameState) (r : TickRng) : RaceGameState :=
  { s with obstacles := alloc_first_free (fun o => o.alive) (mk_obstacle s.level r) s.obstacles }

def mk_coin (r : TickRng) : Coin :=
  { lane := ((r.coinLane % 3 : Nat) : Int), y := -12, alive := true }

def spawn_coin (s : RaceGameState) (r : TickRng) : RaceGameState :=
  { s with coins := alloc_first_free (fun c => c.alive) (mk_coin r) s.coins }

def pw_of_nat : Nat → PowerUpType
  | 0 => .shield
  | 1 => .magnet
  | _ => .fuel

def mk_powerup (r : TickRng) : PowerUp :=
  { lane := ((r.pwLane % 3 : Nat) : Int), y := -12, alive := true, type := pw_of_nat (r.pwType % 3) }

def spawn_powerup (s : RaceGameState) (r : TickRng) : RaceGameState :=
  { s with powerups := alloc_first_free (fun p => p.alive) (mk_powerup r) s.powerups }

-- ── Movement phase ─────────────────────────────────────────────────────

/-- Per-obstacle move: motos one faster, trucks one slower, then the
off-screen check against `SCREEN_H` plus the class height. -/
def move_obstacle_step (spd : Int) (o : Obstacle) : Obstacle :=
  let mv := spd + (if o.type = ObsType.moto then 1 else 0) -
    (if o.type = ObsType.truck then 1 else 0)
  let y' := o.y + mv
  let oh : Int := if o.type = ObsType.truck then 16 else 12
  if y' > SCREEN_H + oh then { o with y := y', alive := false } else { o with y := y' }

/-- Obstacle loop: moves alive obstacles and awards +10 score (uint32)
per retirement. -/
def move_obstacles (spd : Int) : List Obstacle → Nat → List Obstacle × Nat
  | [], score => ([], score)
  | o :: os, score =>
    if o.alive then
      let o' := move_obstacle_step spd o
      let sc0 := if o'.alive then score else (score + 10) % U32
      let rs := move_obstacles spd os sc0
      (o' :: rs.1, rs.2)
    else
      let rs := move_obstacles spd os score
      (o :: rs.1, rs.2)

def move_coin_step (spd : Int) (c : Coin) : Coin :=
  let y' := c.y + spd
  if y' > SCREEN_H then { c with y := y', alive := false } else { c with y := y' }

def move_coins (spd : Int) (cs : List Coin) : List Coin :=
  cs.map fun c => if c.alive then move_coin_step spd c else c

def move_powerup_step (spd : Int) (p : PowerUp) : PowerUp :=
  let y' := p.y + spd
  if y' > SCREEN_H then { p with y := y', alive := false } else { p with y := y' }

def move_powerups (spd : Int) (ps : List PowerUp) : List PowerUp :=
  ps.map fun p => if p.alive then move_powerup_step spd p else p

-- ── High score persistence ─────────────────────────────────────────────

/-- `save_high_score`: writes the scalar only when the current score
strictly exceeds the stored best. -/
def save_high_score (s : RaceGameState) : RaceGameState :=
  if s.score ≤ s.high_score then s
  else { s with high_score := s.score, persisted_high := s.score }

-- ── Tick phases ────────────────────────────────────────────────────────

/-- Top of `game_tick`: tick counter, road scroll, timed-counter decay,
particle update and scenery recycling. -/
def tick_housekeeping (s : RaceGameState) (r : TickRng) : RaceGameState :=
  let rs := s.road_scroll + 3
  { s with
    tick_count := (s.tick_count + 1) % U32
    road_scroll := if rs ≥ DASH_TOTAL then rs - DASH_TOTAL else rs
    invincible_ticks := if s.invincible_ticks > 0 then s.invincible_ticks - 1 else s.invincible_ticks
    shield_ticks := if s.shield_ticks > 0 then s.shield_ticks - 1 else s.shield_ticks
    magnet_ticks := if s.magnet_ticks > 0 then s.magnet_ticks - 1 else s.magnet_ticks
    combo_display := if s.combo_display > 0 then s.combo_display - 1 else s.combo_display
    particles := update_particles s.particles
    scenery := s.scenery.enum.map fun q => move_scenery_item r q.1 q.2 }

/-- The per-tick displacement `int spd = 3 + (s->level / 2)`. -/
def tick_speed (level : Nat) : Int := ((3 + level / 2 : Nat) : Int)

/-- Movement phase: all active obstacles, coins and power-ups move by the
level-derived displacement, with retirement checks. -/
def tick_move (s : RaceGameState) : RaceGameState :=
  let spd : Int := tick_speed s.level
  let ores := move_obstacles spd s.obstacles s.score
  { s with
    obstacles := ores.1
    score := ores.2
    coins := move_coins spd s.coins
    powerups := move_powerups spd s.powerups }

/-- Spawn phase: the three cadence tests against the tick counter. -/
def tick_spawns (s : RaceGameState) (r : TickRng) : RaceGameState :=
  let s1 := if s.tick_count % diff_spawn s.difficulty = 0 then spawn_obstacle s r else s
  let s2 := if s1.tick_count % 18 = 0 then spawn_coin s1 r else s1
  if s2.tick_count % 60 = 0 then spawn_powerup s2 r else s2

/-- Collision resolution: skipped entirely while invincible or shielded;
otherwise a hit costs a life, resets the combo, bursts particles at the
player's center, and either ends the game (lives exhausted: GameOver,
timer stopped, high score saved) or grants 20 invincibility ticks. -/
def resolve_collision (s : RaceGameState) (r : TickRng) : RaceGameState :=
  if s.invincible_ticks = 0 ∧ s.shield_ticks = 0 ∧ check_collision s = true then
    if (s.lives + 255) % U8 = 0 then
      save_high_score
        { s with
          lives := (s.lives + 255) % U8
          combo := 0
          particles := spawn_particles r (car_lx s.player_lane + CAR_W / 2) (PLAYER_Y + CAR_H / 2)
          state := GameState.gameOver
          timer_running := false }
    else
      { s with
        lives := (s.lives + 255) % U8
        combo := 0
        particles := spawn_particles r (car_lx s.player_lane + CAR_W / 2) (PLAYER_Y + CAR_H / 2)
        invincible_ticks := 20 }
  else s

/-- Level-up block at the end of `game_tick`.  Note the C stores
`score / 200` into a `uint8_t` before clamping, hence the `% U8`. -/
def level_up (s : RaceGameState) : RaceGameState :=
  let nl0 := s.score / 200 % U8
  let nl := if nl0 > 9 then 9 else nl0
  if nl > s.level then
    let mins := diff_min_speed s.difficulty
    let sp0 := diff_speed s.difficulty - nl * 8
    { s with
      level := nl
      speed := if sp0 < mins then mins else sp0
      timer_running := true }
  else s

/-- Tail of `game_tick`: the fatal-collision branch returns early and
skips the level-up block. -/
def tick_finish (s : RaceGameState) : RaceGameState :=
  if s.state = GameState.gameOver then s else level_up s

/-- `game_tick`: the full per-tick pipeline, a no-op outside Playing. -/
def game_tick (s : RaceGameState) (r : TickRng) : RaceGameState :=
  if s.state = GameState.playing then
    tick_finish (resolve_collision (check_collections (tick_spawns (tick_move
      (tick_housekeeping s r)) r)) r)
  else s

/-- `game_init`: episode start from the menu.  Pools are deactivated in
place, session counters reset, the periodic timer restarted. -/
def game_init (s : RaceGameState) (r : TickRng) : RaceGameState :=
  { s with
    state := GameState.playing
    player_lane := 1
    score := 0
    level := 0
    lives := INITIAL_LIVES
    speed := diff_speed s.difficulty
    tick_count := 0
    road_scroll := 0
    invincible_ticks := 0
    shield_ticks := 0
    magnet_ticks := 0
    combo := 0
    combo_display := 0
    obstacles := s.obstacles.map fun o => { o with alive := false }
    coins := s.coins.map fun c => { c with alive := false }
    powerups := s.powerups.map fun p => { p with alive := false }
    particles := s.particles.map fun p => { p with life := 0 }
    scenery := init_scenery r s.scenery
    timer_running := true }

-- ── Concrete fixtures for witnesses and counterexamples ────────────────

/-- Degenerate random oracle (every draw returns 0). -/
def rng0 : TickRng :=
  { scY := fun _ => 0, scSide := fun _ => 0, scType := fun _ => 0
    obsLane := 0, obsBoss := 0, obsCls := 0, coinLane := 0, pwLane := 0, pwType := 0
    pDx := fun _ => 0, pDy := fun _ => 0, pLife := fun _ => 0 }

def deadObs : Obstacle := { lane := 0, y := 0, alive := false, type := ObsType.sedan }

def deadCoin : Coin := { lane := 0, y := 0, alive := false }

def deadPw : PowerUp := { lane := 0, y := 0, alive := false, type := PowerUpType.shield }

/-- A freshly started Playing state on normal difficulty, as `game_init`
produces it (empty pools, three lives, score 0). -/
def baseState : RaceGameState :=
  { state := GameState.playing, player_lane := 1, score := 0, high_score := 0
    level := 0, lives := 3, speed := 120, tick_count := 0, road_scroll := 0
    night_mode := false, sound_on := true, menu_idx := 0, difficulty := Difficulty.normal
    invincible_ticks := 0, shield_ticks := 0, magnet_ticks := 0, combo := 0, combo_display := 0
    obstacles := [deadObs, deadObs, deadObs, deadObs, deadObs]
    coins := [deadCoin, deadCoin, deadCoin]
    powerups := [deadPw, deadPw]
    scenery := [], particles := [], timer_running := true, persisted_high := 0 }

-- ── General helper lemmas ──────────────────────────────────────────────

theorem if_gt_one_eq_max (n : Nat) : (if n > 1 then n else 1) = max n 1 := by
  by_cases h : n > 1 <;> simp [h] <;> omega

theorem alloc_length {α : Type} (f : α → Bool) (n : α) (l : List α) :
    (alloc_first_free f n l).length = l.length := by
  induction l with
  | nil => rfl
  | cons x xs ih =>
    simp only [alloc_first_free]
    by_cases h : f x <;> simp [h, ih]

theorem alloc_all_alive {α : Type} (f : α → Bool) (n : α) (l : List α)
    (h : ∀ x ∈ l, f x = true) : alloc_first_free f n l = l := by
  induction l with
  | nil => rfl
  | cons x xs ih =>
    simp only [alloc_first_free, h x (List.mem_cons_self x xs), if_true]
    rw [ih fun y hy => h y (List.mem_cons_of_mem x hy)]

theorem alloc_writes_first_free {α : Type} (f : α → Bool) (n : α)
    (l₁ : List α) (x : α) (l₂ : List α)
    (h₁ : ∀ y ∈ l₁, f y = true) (hx : f x = false) :
    alloc_first_free f n (l₁ ++ x :: l₂) = l₁ ++ n :: l₂ := by
  induction l₁ with
  | nil => simp [alloc_first_free, hx]
  | cons y ys ih =>
    simp only [List.cons_append, alloc_first_free,
      h₁ y (List.mem_cons_self y ys), if_true]
    exact congrArg (y :: ·) (ih fun z hz => h₁ z (List.mem_cons_of_mem y hz))

theorem spawn_particles_center (r : TickRng) (cx cy : Int) :
    (spawn_particles r cx cy).length = MAX_PARTICLES ∧
      ∀ p ∈ spawn_particles r cx cy, p.x = cx ∧ p.y = cy ∧ 0 < p.life := by
  constructor
  · simp [spawn_particles]
  · intro p hp
    simp only [spawn_particles, List.mem_map, List.mem_range] at hp
    obtain ⟨i, _, rfl⟩ := hp
    refine ⟨rfl, rfl, ?_⟩
    show 0 < 8 + r.pLife i % 5
    omega

-- ── C4: coin collection scoring ────────────────────────────────────────

/-- C4: collecting a coin that touches the player's hitbox deactivates it,
increments the combo counter (uint8), resets the combo display countdown
to 15 ticks, and adds exactly `25 * max(combo_after_increment, 1)` to the
score. -/
theorem C4_coin_scoring (pl : Int) (magnet : Nat) (c : Coin) (combo cd score : Nat)
    (halive : c.alive = true) (htouch : coin_touch pl c = true) :
    process_coin pl magnet c combo cd score =
      ({ c with alive := false }, (combo + 1) % U8, 15,
        (score + 25 * max ((combo + 1) % U8) 1) % U32) := by
  simp [process_coin, halive, htouch, if_gt_one_eq_max]

/-- C4 witness: immediately after `game_init` the combo is 0, the first
collected coin awards 25 points (combo becomes 1), and a second
consecutive coin awards 50 more (combo becomes 2). -/
theorem C4_coin_scoring_witness :
    (game_init baseState rng0).combo = 0 ∧
    process_coin 1 0 { lane := 1, y := 105, alive := true } 0 0 0 =
      ({ lane := 1, y := 105, alive := false }, 1, 15, 25) ∧
    process_coin 1 0 { lane := 1, y := 105, alive := true } 1 7 25 =
      ({ lane := 1, y := 105, alive := false }, 2, 15, 75) := by
  refine ⟨by decide, ?_, ?_⟩
  · rw [C4_coin_scoring 1 0 { lane := 1, y := 105, alive := true } 0 0 0 rfl (by decide)]
    decide
  · rw [C4_coin_scoring 1 0 { lane := 1, y := 105, alive := true } 1 7 25 rfl (by decide)]
    decide

-- ── C6: magnet pull vs. collection ─────────────────────────────────────

/-- C6: while the magnet timer is positive, the coin is within 30 px
vertically, and the coin does not overlap the player's hitbox, the coin
is pulled: 4 px vertically toward the player's row, one lane step toward
the player's lane, and it is not collected on this tick (it stays alive
and combo, countdown and score are untouched). -/
theorem C6_magnet_pull (pl : Int) (magnet : Nat) (c : Coin) (combo cd score : Nat)
    (halive : c.alive = true) (hm : 0 < magnet)
    (hd : (c.y - PLAYER_Y).natAbs < 30) (ht : coin_touch pl c = false) :
    process_coin pl magnet c combo cd score = (pull_coin pl c, combo, cd, score) ∧
    (pull_coin pl c).alive = true ∧
    (c.y < PLAYER_Y → (pull_coin pl c).y = c.y + 4) ∧
    (PLAYER_Y < c.y → (pull_coin pl c).y = c.y - 4) ∧
    (c.lane < pl → (pull_coin pl c).lane = c.lane + 1) ∧
    (pl < c.lane → (pull_coin pl c).lane = c.lane - 1) ∧
    (c.lane = pl → (pull_coin pl c).lane = c.lane) := by
  have hmp : magnet_range magnet c = true := by
    simp [magnet_range, hm, hd]
  refine ⟨by simp [process_coin, halive, ht, hmp], by simp [pull_coin, halive], ?_, ?_, ?_, ?_, ?_⟩
  · intro h; simp [pull_coin, h]
  · intro h; simp [pull_coin]; omega
  · intro h; simp [pull_coin, h]
  · intro h
    have h1 : ¬ c.lane < pl := by omega
    simp [pull_coin, h, h1]
  · intro h; simp [pull_coin, h]

/-- C6 witness: a live coin in lane 0 at vertical offset 80 (25 px above
the player's row, no overlap) with the magnet active is pulled to lane 1,
offset 84, and stays alive with score and combo untouched. -/
theorem C6_magnet_pull_witness :
    process_coin 1 5 { lane := 0, y := 80, alive := true } 4 0 700 =
      (pull_coin 1 { lane := 0, y := 80, alive := true }, 4, 0, 700) ∧
    pull_coin 1 { lane := 0, y := 80, alive := true } =
      { lane := 1, y := 84, alive := true } :=
  ⟨(C6_magnet_pull 1 5 { lane := 0, y := 80, alive := true } 4 0 700 rfl
      (by decide) (by decide) (by decide)).1, by decide⟩

-- ── C8: combo monotonicity ─────────────────────────────────────────────

/-- C8 counterexample: the combo counter is a `uint8_t`; collecting a coin
while the combo is 255 wraps it to 0, so a coin collection can decrease
the combo, contradicting the claim that only collisions ever lower it. -/
theorem C8_cex :
    ({ lane := 1, y := 105, alive := true } : Coin).alive = true ∧
    coin_touch 1 { lane := 1, y := 105, alive := true } = true ∧
    (process_coin 1 0 { lane := 1, y := 105, alive := true } 255 0 0).2.1 = 0 ∧
    (0 : Nat) < 255 := by decide

/-- C8 (amended): a resolved collision resets the combo to 0; coin
collection is the only other operation touching the combo and it
increments it modulo 256, so it never decreases it except for the uint8
wrap from 255 to 0. -/
theorem C8_combo_rules (s : RaceGameState) (r : TickRng) (pl : Int) (magnet : Nat)
    (c : Coin) (combo cd score : Nat) :
    (s.invincible_ticks = 0 → s.shield_ticks = 0 → check_collision s = true →
      (resolve_collision s r).combo = 0) ∧
    (combo < 255 → combo ≤ (process_coin pl magnet c combo cd score).2.1) ∧
    (combo = 255 → c.alive = true → coin_touch pl c = true →
      (process_coin pl magnet c combo cd score).2.1 = 0) := by
  refine ⟨?_, ?_, ?_⟩
  · intro h1 h2 h3
    simp only [resolve_collision, if_pos (And.intro h1 (And.intro h2 h3))]
    by_cases hz : (s.lives + 255) % U8 = 0
    · simp only [hz, if_pos rfl, save_high_score]
      by_cases hs : s.score ≤ s.high_score <;> simp [hs]
    · simp [hz]
  · intro h
    unfold process_coin
    by_cases ha : c.alive
    · simp only [ha, Bool.not_true]
      by_cases htm : (coin_touch pl c || magnet_range magnet c) = true
      · simp only [htm, if_true, Bool.false_eq_true, if_false]
        by_cases hpull : (magnet_range magnet c && !coin_touch pl c) = true
        · simp [hpull]
        · simp only [Bool.not_eq_true] at hpull
          simp only [hpull, Bool.false_eq_true, if_false]
          have : (combo + 1) % U8 = combo + 1 := Nat.mod_eq_of_lt (by unfold U8; omega)
          simp [this]
      · simp only [Bool.not_eq_true] at htm
        simp [htm]
    · simp only [Bool.not_eq_true] at ha
      simp [ha]
  · intro hcombo ha ht
    subst hcombo
    rw [C4_coin_scoring pl magnet c 255 cd score ha ht]
    rfl

/-- C8 witness: a shielded-free collision resets the combo of a concrete
colliding state to 0, and a coin collection at combo 4 does not decrease
the combo. -/
theorem C8_combo_rules_witness :
    (resolve_collision
      { baseState with
        obstacles := [{ lane := 1, y := 105, alive := true, type := ObsType.sedan },
          deadObs, deadObs, deadObs, deadObs] } rng0).combo = 0 ∧
    4 ≤ (process_coin 1 0 { lane := 1, y := 105, alive := true } 4 0 0).2.1 := by
  constructor
  · exact (C8_combo_rules
      { baseState with
        obstacles := [{ lane := 1, y := 105, alive := true, type := ObsType.sedan },
          deadObs, deadObs, deadObs, deadObs] } rng0 1 0 deadCoin 0 0 0).1
      rfl rfl (by decide)
  · exact (C8_combo_rules baseState rng0 1 0
      { lane := 1, y := 105, alive := true } 4 0 0).2.1 (by decide)

-- ── C9: pool allocation ────────────────────────────────────────────────

/-- C9: each spawn writes the new entity into the first slot whose alive
flag is clear, and a spawn attempt against a fully active pool is a
silent no-op leaving the entire game state unchanged. -/
theorem C9_pool_allocation (s : RaceGameState) (r : TickRng) :
    ((∀ o ∈ s.obstacles, o.alive = true) → spawn_obstacle s r = s) ∧
    ((∀ c ∈ s.coins, c.alive = true) → spawn_coin s r = s) ∧
    ((∀ p ∈ s.powerups, p.alive = true) → spawn_powerup s r = s) ∧
    (∀ l₁ x l₂, s.obstacles = l₁ ++ x :: l₂ → (∀ y ∈ l₁, y.alive = true) →
      x.alive = false →
      spawn_obstacle s r = { s with obstacles := l₁ ++ mk_obstacle s.level r :: l₂ }) ∧
    (∀ l₁ x l₂, s.coins = l₁ ++ x :: l₂ → (∀ y ∈ l₁, y.alive = true) →
      x.alive = false →
      spawn_coin s r = { s with coins := l₁ ++ mk_coin r :: l₂ }) ∧
    (∀ l₁ x l₂, s.powerups = l₁ ++ x :: l₂ → (∀ y ∈ l₁, y.alive = true) →
      x.alive = false →
      spawn_powerup s r = { s with powerups := l₁ ++ mk_powerup r :: l₂ }) := by
  refine ⟨?_, ?_, ?_, ?_, ?_, ?_⟩
  · intro h; unfold spawn_obstacle; rw [alloc_all_alive _ _ _ h]
  · intro h; unfold spawn_coin; rw [alloc_all_alive _ _ _ h]
  · intro h; unfold spawn_powerup; rw [alloc_all_alive _ _ _ h]
  · intro l₁ x l₂ he h₁ hx
    unfold spawn_obstacle; rw [he, alloc_writes_first_free _ _ _ _ _ h₁ hx]
  · intro l₁ x l₂ he h₁ hx
    unfold spawn_coin; rw [he, alloc_writes_first_free _ _ _ _ _ h₁ hx]
  · intro l₁ x l₂ he h₁ hx
    unfold spawn_powerup; rw [he, alloc_writes_first_free _ _ _ _ _ h₁ hx]

/-- C9 witness: spawning against a fully active obstacle pool changes
nothing, and spawning a coin into a pool whose first slot is free writes
exactly that slot. -/
theorem C9_pool_allocation_witness :
    spawn_obstacle
      { baseState with
        obstacles := List.replicate 5 { lane := 0, y := 0, alive := true, type := ObsType.sedan } }
      rng0 =
      { baseState with
        obstacles := List.replicate 5 { lane := 0, y := 0, alive := true, type := ObsType.sedan } } ∧
    spawn_coin baseState rng0 =
      { baseState with coins := [] ++ mk_coin rng0 :: [deadCoin, deadCoin] } := by
  constructor
  · exact (C9_pool_allocation
      { baseState with
        obstacles := List.replicate 5 { lane := 0, y := 0, alive := true, type := ObsType.sedan } }
      rng0).1 (by decide)
  · exact (C9_pool_allocation baseState rng0).2.2.2.2.1 [] deadCoin [deadCoin, deadCoin]
      rfl (by decide) rfl

-- ── Characterization of save_high_score and resolve_collision ──────────

theorem save_high_score_fields (t : RaceGameState) :
    (save_high_score t).lives = t.lives ∧ (save_high_score t).combo = t.combo ∧
    (save_high_score t).particles = t.particles ∧
    (save_high_score t).invincible_ticks = t.invincible_ticks ∧
    (save_high_score t).state = t.state ∧
    (save_high_score t).timer_running = t.timer_running ∧
    (save_high_score t).score = t.score ∧ (save_high_score t).level = t.level ∧
    (save_high_score t).coins = t.coins ∧
    (save_high_score t).difficulty = t.difficulty ∧
    (save_high_score t).high_score =
      (if t.high_score < t.score then t.score else t.high_score) ∧
    (save_high_score t).persisted_high =
      (if t.high_score < t.score then t.score else t.persisted_high) := by
  unfold save_high_score
  by_cases h : t.score ≤ t.high_score
  · have h' : ¬ t.high_score < t.score := by omega
    simp [h, h']
  · have h' : t.high_score < t.score := by omega
    simp [h, h']

theorem resolve_collision_spec (s : RaceGameState) (r : TickRng) :
    (¬(s.invincible_ticks = 0 ∧ s.shield_ticks = 0 ∧ check_collision s = true) →
      resolve_collision s r = s) ∧
    ((s.invincible_ticks = 0 ∧ s.shield_ticks = 0 ∧ check_collision s = true) →
      (resolve_collision s r).lives = (s.lives + 255) % U8 ∧
      (resolve_collision s r).combo = 0 ∧
      (resolve_collision s r).particles =
        spawn_particles r (car_lx s.player_lane + CAR_W / 2) (PLAYER_Y + CAR_H / 2) ∧
      (resolve_collision s r).score = s.score ∧
      (resolve_collision s r).level = s.level ∧
      (resolve_collision s r).coins = s.coins ∧
      (resolve_collision s r).difficulty = s.difficulty ∧
      ((s.lives + 255) % U8 = 0 →
        (resolve_collision s r).state = GameState.gameOver ∧
        (resolve_collision s r).timer_running = false ∧
        (resolve_collision s r).high_score =
          (if s.high_score < s.score then s.score else s.high_score) ∧
        (resolve_collision s r).persisted_high =
          (if s.high_score < s.score then s.score else s.persisted_high)) ∧
      ((s.lives + 255) % U8 ≠ 0 →
        (resolve_collision s r).state = s.state ∧
        (resolve_collision s r).timer_running = s.timer_running ∧
        (resolve_collision s r).high_score = s.high_score ∧
        (resolve_collision s r).persisted_high = s.persisted_high ∧
        (resolve_collision s r).invincible_ticks = 20)) := by
  constructor
  · intro h
    unfold resolve_collision
    rw [if_neg h]
  · intro h
    unfold resolve_collision
    rw [if_pos h]
    by_cases hz : (s.lives + 255) % U8 = 0
    · rw [if_pos hz]
      obtain ⟨f1, f2, f3, _, f5, f6, f7, f8, f9, f10, f11, f12⟩ :=
        save_high_score_fields
          { s with
            lives := (s.lives + 255) % U8
            combo := 0
            particles := spawn_particles r (car_lx s.player_lane + CAR_W / 2) (PLAYER_Y + CAR_H / 2)
            state := GameState.gameOver
            timer_running := false }
      exact ⟨f1, f2, f3, f7, f8, f9, f10,
        fun _ => ⟨f5, f6, f11, f12⟩, fun hnz => absurd hz hnz⟩
    · rw [if_neg hz]
      exact ⟨rfl, rfl, rfl, rfl, rfl, rfl, rfl,
        fun hzz => absurd hzz hz, fun _ => ⟨rfl, rfl, rfl, rfl, rfl⟩⟩

-- ── C2: collision gating and effects ───────────────────────────────────

/-- A Standard obstacle sitting right on the player's row in the center
lane: it always collides with a center-lane player. -/
def hitSedan : Obstacle := { lane := 1, y := 105, alive := true, type := ObsType.sedan }

/-- `baseState` (3 lives, no shield, no invincibility) with `hitSedan`
in the obstacle pool. -/
def hitState : RaceGameState :=
  { baseState with obstacles := [hitSedan, deadObs, deadObs, deadObs, deadObs], combo := 7 }

/-- C2 counterexample: with one life left, an unignored collision does
not set the invincibility timer to 20 — the fatal branch returns early
with the timer still 0, so the claim's unconditional "sets the
invincibility-timer to 20 ticks" fails. -/
theorem C2_cex :
    ({ hitState with lives := 1 } : RaceGameState).invincible_ticks = 0 ∧
    ({ hitState with lives := 1 } : RaceGameState).shield_ticks = 0 ∧
    check_collision { hitState with lives := 1 } = true ∧
    (resolve_collision { hitState with lives := 1 } rng0).lives = 0 ∧
    (resolve_collision { hitState with lives := 1 } rng0).invincible_ticks ≠ 20 := by
  decide

/-- C2 (amended): the collision step is the identity while the
invincibility or shield timer is positive; an unignored collision
decrements lives, resets the combo to 0 and bursts particles at the
player's center, and sets the invincibility timer to 20 ticks whenever at
least one life remains (on the fatal collision the session ends instead
and the timer stays 0). -/
theorem C2_collision_rules (s : RaceGameState) (r : TickRng) :
    (0 < s.invincible_ticks ∨ 0 < s.shield_ticks → resolve_collision s r = s) ∧
    (s.invincible_ticks = 0 → s.shield_ticks = 0 → check_collision s = true →
      1 ≤ s.lives → s.lives ≤ 255 →
      (resolve_collision s r).lives = s.lives - 1 ∧
      (resolve_collision s r).combo = 0 ∧
      (∀ p ∈ (resolve_collision s r).particles,
        p.x = car_lx s.player_lane + CAR_W / 2 ∧
        p.y = PLAYER_Y + CAR_H / 2 ∧ 0 < p.life) ∧
      (2 ≤ s.lives → (resolve_collision s r).invincible_ticks = 20)) := by
  obtain ⟨hno, hyes⟩ := resolve_collision_spec s r
  constructor
  · intro h
    apply hno
    rintro ⟨h1, h2, _⟩
    omega
  · intro h1 h2 h3 hl hl255
    obtain ⟨flives, fcombo, fparts, _, _, _, _, _, hsafe⟩ := hyes ⟨h1, h2, h3⟩
    have hdec : (s.lives + 255) % U8 = s.lives - 1 := by
      unfold U8
      omega
    refine ⟨by rw [flives, hdec], fcombo, ?_, ?_⟩
    · rw [fparts]
      exact (spawn_particles_center r _ _).2
    · intro h2l
      have hnz : (s.lives + 255) % U8 ≠ 0 := by
        rw [hdec]
        omega
      exact (hsafe hnz).2.2.2.2

/-- C2 witness: a shielded collision changes nothing, and the same
collision with the shield down and three lives costs exactly one life,
resets the combo and grants 20 invincibility ticks. -/
theorem C2_collision_rules_witness :
    resolve_collision { hitState with shield_ticks := 10 } rng0 =
      { hitState with shield_ticks := 10 } ∧
    (resolve_collision hitState rng0).lives = 2 ∧
    (resolve_collision hitState rng0).combo = 0 ∧
    (resolve_collision hitState rng0).invincible_ticks = 20 := by
  refine ⟨(C2_collision_rules _ rng0).1 (Or.inr (by decide)), ?_, ?_, ?_⟩
  · exact ((C2_collision_rules hitState rng0).2
      rfl rfl (by decide) (by decide) (by decide)).1
  · exact ((C2_collision_rules hitState rng0).2
      rfl rfl (by decide) (by decide) (by decide)).2.1
  · exact ((C2_collision_rules hitState rng0).2
      rfl rfl (by decide) (by decide) (by decide)).2.2.2 (by decide)

-- ── C5: movement and retirement ────────────────────────────────────────

/-- Follows the spec's words for C5: an entity of height `h` at vertical
offset `y` "retires when its leading edge passes the bottom edge of the
visible track by its own height", i.e. when `y > SCREEN_H + h`. -/
def spec_retires (h y : Int) : Bool := decide (y > SCREEN_H + h)

/-- C5 counterexample: on a tick at level 0 a live coin at offset 126
moves to 129 and is retired by the code (`y > SCREEN_H`), although the
claim's uniform rule for an 8 px coin would keep it until `y > 136`; the
code's obstacle rule (`y > SCREEN_H + height`) and coin/power-up rule
(`y > SCREEN_H`) use different thresholds, so the claim's single rule is
false. -/
theorem C5_cex :
    (game_tick { baseState with
      coins := [{ lane := 0, y := 126, alive := true }, deadCoin, deadCoin] } rng0).coins.head? =
      some { lane := 0, y := 129, alive := false } ∧
    spec_retires 8 129 = false := by
  decide

/-- C5 (amended): every active obstacle moves by `3 + level/2` px plus 1
for Narrow and minus 1 for Wide, and retires exactly when its offset
exceeds `SCREEN_H` plus its class height (16 Wide, 12 otherwise), with
+10 score per retirement; active coins and power-ups move by `3 +
level/2` px and retire exactly when their offset exceeds `SCREEN_H`. -/
theorem C5_motion_rules (level : Nat) (o : Obstacle) (c : Coin) (p : PowerUp) (sc : Nat)
    (ho : o.alive = true) (hc : c.alive = true) (hp : p.alive = true) :
    ((move_obstacle_step (tick_speed level) o).y =
      o.y + tick_speed level + (if o.type = ObsType.moto then 1 else 0) -
        (if o.type = ObsType.truck then 1 else 0)) ∧
    ((move_obstacle_step (tick_speed level) o).alive = false ↔
      (move_obstacle_step (tick_speed level) o).y >
        SCREEN_H + (if o.type = ObsType.truck then 16 else 12)) ∧
    (move_obstacles (tick_speed level) [o] sc =
      ([move_obstacle_step (tick_speed level) o],
        if (move_obstacle_step (tick_speed level) o).alive then sc else (sc + 10) % U32)) ∧
    ((move_coin_step (tick_speed level) c).y = c.y + tick_speed level) ∧
    ((move_coin_step (tick_speed level) c).alive = false ↔
      c.y + tick_speed level > SCREEN_H) ∧
    ((move_powerup_step (tick_speed level) p).y = p.y + tick_speed level) ∧
    ((move_powerup_step (tick_speed level) p).alive = false ↔
      p.y + tick_speed level > SCREEN_H) := by
  refine ⟨?_, ?_, ?_, ?_, ?_, ?_, ?_⟩
  · simp only [move_obstacle_step]
    split_ifs <;> simp <;> ring
  · simp only [move_obstacle_step]
    split_ifs with h <;> simp_all
  · simp [move_obstacles, ho]
  · simp only [move_coin_step]
    split_ifs <;> rfl
  · simp only [move_coin_step]
    split_ifs with h <;> simp_all
  · simp only [move_powerup_step]
    split_ifs <;> rfl
  · simp only [move_powerup_step]
    split_ifs with h <;> simp_all

/-- C5 witness: at level 0 a live Narrow obstacle at offset 100 moves to
104 (base 3 plus 1), and a live coin at offset 126 moves to 129 and is
retired. -/
theorem C5_motion_rules_witness :
    (move_coin_step (tick_speed 0) { lane := 0, y := 126, alive := true }).alive = false ∧
    (move_obstacle_step (tick_speed 0)
      { lane := 0, y := 100, alive := true, type := ObsType.moto }).y = 104 := by
  have h := C5_motion_rules 0
    { lane := 0, y := 100, alive := true, type := ObsType.moto }
    { lane := 0, y := 126, alive := true }
    { lane := 0, y := 50, alive := true, type := PowerUpType.shield } 0 rfl rfl rfl
  constructor
  · exact h.2.2.2.2.1.mpr (by decide)
  · rw [h.1]
    decide

-- ── C7: boss spawning and hitbox ───────────────────────────────────────

/-- C7 counterexample: the boss truck's collision hitbox is 20 px wide,
not the "two lane-widths" (2 x 14 = 28 px) the claim states. -/
theorem C7_cex :
    (obs_hitbox { lane := 1, y := 100, alive := true, type := ObsType.truck }).2.1 = 20 ∧
    2 * LANE_WIDTH = 28 ∧
    (obs_hitbox { lane := 1, y := 100, alive := true, type := ObsType.truck }).2.1 ≠
      2 * LANE_WIDTH := by
  decide

/-- C7 (amended): a Wide (truck) obstacle is spawned exactly when
`level > 0`, `level % 5 == 0` and the 1-in-4 draw hits, and it is always
placed in the center lane; otherwise the class is Narrow on a 1-in-3 draw
and Standard else, in the randomly drawn lane.  The truck's hitbox is 20
px wide (two car-widths, centered on the center lane) and 16 px tall, and
it overlaps the player's hitbox in all three lanes whenever the vertical
ranges meet. -/
theorem C7_boss_rules (level : Nat) (r : TickRng) (o : Obstacle) (pl : Int) :
    ((mk_obstacle level r).type = ObsType.truck ↔
      0 < level ∧ level % 5 = 0 ∧ r.obsBoss % 4 = 0) ∧
    ((mk_obstacle level r).type = ObsType.truck → (mk_obstacle level r).lane = 1) ∧
    (¬(0 < level ∧ level % 5 = 0 ∧ r.obsBoss % 4 = 0) →
      (mk_obstacle level r).type =
        (if r.obsCls % 3 = 0 then ObsType.moto else ObsType.sedan) ∧
      (mk_obstacle level r).lane = ((r.obsLane % 3 : Nat) : Int)) ∧
    (o.type = ObsType.truck → obs_hitbox o = (car_lx o.lane - 5, 20, 16)) ∧
    (o.type = ObsType.truck → o.lane = 1 → o.alive = true →
      PLAYER_Y < o.y + 16 → o.y < PLAYER_Y + CAR_H → 0 ≤ pl → pl ≤ 2 →
      hits_player pl o = true) := by
  refine ⟨?_, ?_, ?_, ?_, ?_⟩
  · unfold mk_obstacle
    by_cases h : 0 < level ∧ level % 5 = 0 ∧ r.obsBoss % 4 = 0
    · simp [h]
    · simp only [h, if_false]
      split_ifs <;> simp [h]
  · unfold mk_obstacle
    by_cases h : 0 < level ∧ level % 5 = 0 ∧ r.obsBoss % 4 = 0
    · simp [h]
    · simp only [h, if_false]
      split_ifs <;> simp
  · intro h
    unfold mk_obstacle
    simp only [h, if_false]
    split_ifs with h3 <;> simp [h3]
  · intro h
    simp [obs_hitbox, h]
  · intro ht hlane halive hy1 hy2 hp0 hp2
    have hcases : pl = 0 ∨ pl = 1 ∨ pl = 2 := by omega
    simp only [PLAYER_Y, CAR_H] at hy1 hy2
    unfold hits_player
    simp only [obs_hitbox, ht, hlane, halive, Bool.true_and]
    rcases hcases with h | h | h <;> subst h <;>
      simp [car_lx, lane_cx, LANE_WIDTH, ROAD_WIDTH, ROAD_LEFT, ROAD_RIGHT,
        LANE_COUNT, CAR_W, CAR_H, PLAYER_Y] <;>
      omega

/-- C7 witness: at level 5 with a hitting 1-in-4 draw the spawned
obstacle is a center-lane truck, and a center-lane truck at offset 100
collides with the player in the left and in the right lane. -/
theorem C7_boss_rules_witness :
    (mk_obstacle 5 rng0).type = ObsType.truck ∧
    (mk_obstacle 5 rng0).lane = 1 ∧
    hits_player 0 { lane := 1, y := 100, alive := true, type := ObsType.truck } = true ∧
    hits_player 2 { lane := 1, y := 100, alive := true, type := ObsType.truck } = true := by
  refine ⟨(C7_boss_rules 5 rng0 deadObs 0).1.mpr (by decide), ?_, ?_, ?_⟩
  · exact (C7_boss_rules 5 rng0 deadObs 0).2.1
      ((C7_boss_rules 5 rng0 deadObs 0).1.mpr (by decide))
  · exact (C7_boss_rules 5 rng0
      { lane := 1, y := 100, alive := true, type := ObsType.truck } 0).2.2.2.2
      rfl rfl rfl (by decide) (by decide) (by decide) (by decide)
  · exact (C7_boss_rules 5 rng0
      { lane := 1, y := 100, alive := true, type := ObsType.truck } 2).2.2.2.2
      rfl rfl rfl (by decide) (by decide) (by decide) (by decide)

-- ── Field tracking through the tick phases ─────────────────────────────

theorem tick_housekeeping_fields (s : RaceGameState) (r : TickRng) :
    (tick_housekeeping s r).score = s.score ∧
    (tick_housekeeping s r).level = s.level ∧
    (tick_housekeeping s r).state = s.state ∧
    (tick_housekeeping s r).lives = s.lives ∧
    (tick_housekeeping s r).combo = s.combo ∧
    (tick_housekeeping s r).high_score = s.high_score ∧
    (tick_housekeeping s r).persisted_high = s.persisted_high ∧
    (tick_housekeeping s r).difficulty = s.difficulty ∧
    (tick_housekeeping s r).obstacles = s.obstacles ∧
    (tick_housekeeping s r).coins = s.coins ∧
    (tick_housekeeping s r).powerups = s.powerups :=
  ⟨rfl, rfl, rfl, rfl, rfl, rfl, rfl, rfl, rfl, rfl, rfl⟩

theorem tick_move_fields (s : RaceGameState) :
    (tick_move s).score = (move_obstacles (tick_speed s.level) s.obstacles s.score).2 ∧
    (tick_move s).coins = move_coins (tick_speed s.level) s.coins ∧
    (tick_move s).level = s.level ∧
    (tick_move s).state = s.state ∧
    (tick_move s).lives = s.lives ∧
    (tick_move s).combo = s.combo ∧
    (tick_move s).high_score = s.high_score ∧
    (tick_move s).persisted_high = s.persisted_high :=
  ⟨rfl, rfl, rfl, rfl, rfl, rfl, rfl, rfl⟩

theorem tick_spawns_fields (s : RaceGameState) (r : TickRng) :
    (tick_spawns s r).score = s.score ∧
    (tick_spawns s r).level = s.level ∧
    (tick_spawns s r).state = s.state ∧
    (tick_spawns s r).lives = s.lives ∧
    (tick_spawns s r).combo = s.combo ∧
    (tick_spawns s r).high_score = s.high_score ∧
    (tick_spawns s r).persisted_high = s.persisted_high ∧
    (tick_spawns s r).coins.length = s.coins.length := by
  simp only [tick_spawns, spawn_obstacle, spawn_coin, spawn_powerup]
  split_ifs <;> simp [alloc_length]

theorem check_collections_fields (s : RaceGameState) :
    (check_collections s).score =
      (process_coins s.player_lane s.magnet_ticks s.coins s.combo s.combo_display s.score).2.2.2 ∧
    (check_collections s).lives =
      (process_powerups s.player_lane s.powerups s.lives s.shield_ticks s.magnet_ticks).2.1 ∧
    (check_collections s).level = s.level ∧
    (check_collections s).state = s.state ∧
    (check_collections s).high_score = s.high_score ∧
    (check_collections s).persisted_high = s.persisted_high :=
  ⟨rfl, rfl, rfl, rfl, rfl, rfl⟩

theorem level_up_fields (s : RaceGameState) :
    (level_up s).score = s.score ∧
    (level_up s).state = s.state ∧
    (level_up s).lives = s.lives ∧
    (level_up s).high_score = s.high_score ∧
    (level_up s).persisted_high = s.persisted_high ∧
    (level_up s).level =
      (if (if s.score / 200 % U8 > 9 then 9 else s.score / 200 % U8) > s.level
       then (if s.score / 200 % U8 > 9 then 9 else s.score / 200 % U8)
       else s.level) := by
  simp only [level_up]
  split_ifs <;> exact ⟨rfl, rfl, rfl, rfl, rfl, rfl⟩

theorem tick_finish_cases (s : RaceGameState) :
    (s.state = GameState.gameOver → tick_finish s = s) ∧
    (s.state ≠ GameState.gameOver → tick_finish s = level_up s) := by
  unfold tick_finish
  constructor
  · intro h
    rw [if_pos h]
  · intro h
    rw [if_neg h]

-- ── Score accounting through the tick ──────────────────────────────────

theorem move_obstacles_score (spd : Int) (l : List Obstacle) (sc : Nat) (h : sc < U32) :
    ∃ k ≤ l.length, (move_obstacles spd l sc).2 = (sc + 10 * k) % U32 := by
  induction l generalizing sc with
  | nil =>
    exact ⟨0, Nat.le_refl _, by simp [move_obstacles, Nat.mod_eq_of_lt h]⟩
  | cons o os ih =>
    simp only [move_obstacles]
    by_cases ha : o.alive
    · simp only [ha, if_true]
      by_cases hr : (move_obstacle_step spd o).alive
      · simp only [hr, if_true]
        obtain ⟨k, hk, e⟩ := ih sc h
        exact ⟨k, by simp only [List.length_cons]; omega, e⟩
      · simp only [hr, Bool.false_eq_true, if_false]
        have hlt : (sc + 10) % U32 < U32 := Nat.mod_lt _ (by unfold U32; omega)
        obtain ⟨k, hk, e⟩ := ih _ hlt
        refine ⟨k + 1, by simp only [List.length_cons]; omega, ?_⟩
        rw [e, Nat.mod_add_mod]
        congr 1
        ring
    · simp only [ha, Bool.false_eq_true, if_false]
      obtain ⟨k, hk, e⟩ := ih sc h
      exact ⟨k, by simp only [List.length_cons]; omega, e⟩

theorem process_coin_cases (pl : Int) (magnet : Nat) (c : Coin) (combo cd sc : Nat) :
    process_coin pl magnet c combo cd sc = (c, combo, cd, sc) ∨
    process_coin pl magnet c combo cd sc = (pull_coin pl c, combo, cd, sc) ∨
    process_coin pl magnet c combo cd sc =
      ({ c with alive := false }, (combo + 1) % U8, 15,
        (sc + 25 * (if (combo + 1) % U8 > 1 then (combo + 1) % U8 else 1)) % U32) := by
  by_cases ha : c.alive
  · by_cases ht : coin_touch pl c
    · right; right
      simp [process_coin, ha, ht]
    · by_cases hm : magnet_range magnet c
      · right; left
        simp [process_coin, ha, ht, hm]
      · left
        simp [process_coin, ha, ht, hm]
  · left
    simp [process_coin, ha]

theorem process_coin_score (pl : Int) (magnet : Nat) (c : Coin) (combo cd sc : Nat)
    (h : sc < U32) :
    ∃ g ≤ 6375, (process_coin pl magnet c combo cd sc).2.2.2 = (sc + g) % U32 := by
  rcases process_coin_cases pl magnet c combo cd sc with hc | hc | hc
  · exact ⟨0, Nat.zero_le _, by rw [hc]; simp [Nat.mod_eq_of_lt h]⟩
  · exact ⟨0, Nat.zero_le _, by rw [hc]; simp [Nat.mod_eq_of_lt h]⟩
  · refine ⟨25 * (if (combo + 1) % U8 > 1 then (combo + 1) % U8 else 1), ?_, by rw [hc]⟩
    have hm : (combo + 1) % U8 < 256 := by
      unfold U8
      omega
    split_ifs <;> omega

theorem process_coins_score (pl : Int) (magnet : Nat) (l : List Coin) (combo cd sc : Nat)
    (h : sc < U32) :
    ∃ g ≤ 6375 * l.length, (process_coins pl magnet l combo cd sc).2.2.2 = (sc + g) % U32 := by
  induction l generalizing combo cd sc with
  | nil =>
    exact ⟨0, Nat.le_refl _, by simp [process_coins, Nat.mod_eq_of_lt h]⟩
  | cons c cs ih =>
    simp only [process_coins]
    obtain ⟨g1, hg1, e1⟩ := process_coin_score pl magnet c combo cd sc h
    have hlt : (process_coin pl magnet c combo cd sc).2.2.2 < U32 := by
      rw [e1]
      exact Nat.mod_lt _ (by unfold U32; omega)
    obtain ⟨g2, hg2, e2⟩ := ih (process_coin pl magnet c combo cd sc).2.1
      (process_coin pl magnet c combo cd sc).2.2.1 (process_coin pl magnet c combo cd sc).2.2.2 hlt
    refine ⟨g1 + g2, by simp only [List.length_cons]; omega, ?_⟩
    rw [e2, e1, Nat.mod_add_mod, Nat.add_assoc]

-- ── Lives accounting through the tick ──────────────────────────────────

theorem process_powerup_lives (pl : Int) (p : PowerUp) (l sh mg : Nat) :
    (process_powerup pl p l sh mg).2.1 = l ∨
      (l < 5 ∧ (process_powerup pl p l sh mg).2.1 = l + 1) := by
  by_cases ha : p.alive
  · by_cases ht : pw_touch pl p
    · cases hp : p.type
      · exact Or.inl (by simp [process_powerup, ha, ht, hp])
      · exact Or.inl (by simp [process_powerup, ha, ht, hp])
      · by_cases h5 : l < 5
        · exact Or.inr ⟨h5, by simp [process_powerup, ha, ht, hp, h5, MAX_LIVES]⟩
        · exact Or.inl (by simp [process_powerup, ha, ht, hp, h5, MAX_LIVES])
    · exact Or.inl (by simp [process_powerup, ha, ht])
  · exact Or.inl (by simp [process_powerup, ha])

theorem process_powerups_lives_bound (pl : Int) (ps : List PowerUp) (l sh mg k : Nat)
    (hk : 5 ≤ k) (hl : l ≤ k) :
    l ≤ (process_powerups pl ps l sh mg).2.1 ∧ (process_powerups pl ps l sh mg).2.1 ≤ k := by
  induction ps generalizing l sh mg with
  | nil => exact ⟨Nat.le_refl l, hl⟩
  | cons p ps ih =>
    simp only [process_powerups]
    rcases process_powerup_lives pl p l sh mg with h | ⟨h5, h⟩
    · rw [h]
      exact ih l _ _ hl
    · rw [h]
      have hrec := ih (l + 1) (process_powerup pl p l sh mg).2.2.1
        (process_powerup pl p l sh mg).2.2.2 (by omega)
      exact ⟨Nat.le_trans (by omega) hrec.1, hrec.2⟩

theorem resolve_collision_lives_cases (s : RaceGameState) (r : TickRng) :
    (resolve_collision s r).lives = s.lives ∨
      (resolve_collision s r).lives = (s.lives + 255) % U8 := by
  obtain ⟨hno, hyes⟩ := resolve_collision_spec s r
  by_cases h : s.invincible_ticks = 0 ∧ s.shield_ticks = 0 ∧ check_collision s = true
  · exact Or.inr (hyes h).1
  · rw [hno h]
    exact Or.inl rfl

-- ── The pipeline up to the collision step ──────────────────────────────

theorem game_tick_playing_eq (s : RaceGameState) (r : TickRng)
    (hst : s.state = GameState.playing) :
    game_tick s r = tick_finish (resolve_collision (check_collections (tick_spawns
      (tick_move (tick_housekeeping s r)) r)) r) := by
  unfold game_tick
  rw [if_pos hst]

theorem move_coins_length (spd : Int) (cs : List Coin) :
    (move_coins spd cs).length = cs.length := by
  simp [move_coins]

theorem pre_collision_fields (s : RaceGameState) (r : TickRng) :
    (check_collections (tick_spawns (tick_move (tick_housekeeping s r)) r)).state = s.state ∧
    (check_collections (tick_spawns (tick_move (tick_housekeeping s r)) r)).level = s.level ∧
    (check_collections (tick_spawns (tick_move (tick_housekeeping s r)) r)).high_score =
      s.high_score ∧
    (check_collections (tick_spawns (tick_move (tick_housekeeping s r)) r)).persisted_high =
      s.persisted_high := by
  refine ⟨?_, ?_, ?_, ?_⟩
  · rw [(check_collections_fields _).2.2.2.1, (tick_spawns_fields _ r).2.2.1,
      (tick_move_fields _).2.2.2.1, (tick_housekeeping_fields s r).2.2.1]
  · rw [(check_collections_fields _).2.2.1, (tick_spawns_fields _ r).2.1,
      (tick_move_fields _).2.2.1, (tick_housekeeping_fields s r).2.1]
  · rw [(check_collections_fields _).2.2.2.2.1, (tick_spawns_fields _ r).2.2.2.2.2.1,
      (tick_move_fields _).2.2.2.2.2.2.1, (tick_housekeeping_fields s r).2.2.2.2.2.1]
  · rw [(check_collections_fields _).2.2.2.2.2, (tick_spawns_fields _ r).2.2.2.2.2.2.1,
      (tick_move_fields _).2.2.2.2.2.2.2, (tick_housekeeping_fields s r).2.2.2.2.2.2.1]

theorem pre_collision_lives (s : RaceGameState) (r : TickRng) (k : Nat)
    (hk : 5 ≤ k) (hl : s.lives ≤ k) :
    s.lives ≤ (check_collections (tick_spawns (tick_move (tick_housekeeping s r)) r)).lives ∧
    (check_collections (tick_spawns (tick_move (tick_housekeeping s r)) r)).lives ≤ k := by
  have e3 : (tick_spawns (tick_move (tick_housekeeping s r)) r).lives = s.lives := by
    rw [(tick_spawns_fields _ r).2.2.2.1, (tick_move_fields _).2.2.2.2.1,
      (tick_housekeeping_fields s r).2.2.2.1]
  have e4 := (check_collections_fields (tick_spawns (tick_move (tick_housekeeping s r)) r)).2.1
  obtain ⟨hb1, hb2⟩ := process_powerups_lives_bound
    (tick_spawns (tick_move (tick_housekeeping s r)) r).player_lane
    (tick_spawns (tick_move (tick_housekeeping s r)) r).powerups
    (tick_spawns (tick_move (tick_housekeeping s r)) r).lives
    (tick_spawns (tick_move (tick_housekeeping s r)) r).shield_ticks
    (tick_spawns (tick_move (tick_housekeeping s r)) r).magnet_ticks
    k hk (by rw [e3]; exact hl)
  rw [← e4] at hb1 hb2
  rw [e3] at hb1
  exact ⟨hb1, hb2⟩

theorem pre_collision_score (s : RaceGameState) (r : TickRng)
    (hsc : s.score < U32) (hob : s.obstacles.length ≤ 5) (hco : s.coins.length ≤ 3) :
    ∃ G ≤ 19175,
      (check_collections (tick_spawns (tick_move (tick_housekeeping s r)) r)).score =
        (s.score + G) % U32 := by
  have e1s : (tick_housekeeping s r).score = s.score := rfl
  have e1o : (tick_housekeeping s r).obstacles = s.obstacles := rfl
  have e1c : (tick_housekeeping s r).coins = s.coins := rfl
  have e2 := (tick_move_fields (tick_housekeeping s r)).1
  rw [e1s, e1o] at e2
  obtain ⟨k, hk, ek⟩ := move_obstacles_score
    (tick_speed (tick_housekeeping s r).level) s.obstacles s.score hsc
  rw [ek] at e2
  have e3 : (tick_spawns (tick_move (tick_housekeeping s r)) r).score =
      (s.score + 10 * k) % U32 := by
    rw [(tick_spawns_fields _ r).1, e2]
  have e3c : (tick_spawns (tick_move (tick_housekeeping s r)) r).coins.length =
      s.coins.length := by
    rw [(tick_spawns_fields _ r).2.2.2.2.2.2.2,
      (tick_move_fields (tick_housekeeping s r)).2.1, move_coins_length, e1c]
  have e4 := (check_collections_fields (tick_spawns (tick_move (tick_housekeeping s r)) r)).1
  obtain ⟨g, hg, eg⟩ := process_coins_score
    (tick_spawns (tick_move (tick_housekeeping s r)) r).player_lane
    (tick_spawns (tick_move (tick_housekeeping s r)) r).magnet_ticks
    (tick_spawns (tick_move (tick_housekeeping s r)) r).coins
    (tick_spawns (tick_move (tick_housekeeping s r)) r).combo
    (tick_spawns (tick_move (tick_housekeeping s r)) r).combo_display
    (tick_spawns (tick_move (tick_housekeeping s r)) r).score
    (by rw [e3]; exact Nat.mod_lt _ (by unfold U32; omega))
  rw [e3c] at hg
  rw [eg, e3, Nat.mod_add_mod, Nat.add_assoc] at e4
  refine ⟨10 * k + g, ?_, e4⟩
  have hob' : k ≤ 5 := Nat.le_trans hk hob
  have hco' : g ≤ 6375 * 3 := Nat.le_trans hg (by omega)
  omega

-- ── C10: at most one life lost per tick ────────────────────────────────

/-- C10: on any single tick lives decrease by at most 1, even when the
player overlaps several obstacles at once — `check_collision` reports one
boolean for the whole pool and the tick resolves at most one collision. -/
theorem C10_single_decrement (s : RaceGameState) (r : TickRng)
    (h1 : 1 ≤ s.lives) (h255 : s.lives ≤ 255) :
    s.lives ≤ (game_tick s r).lives + 1 := by
  by_cases hst : s.state = GameState.playing
  · have htick : game_tick s r =
        tick_finish (resolve_collision (check_collections (tick_spawns (tick_move
          (tick_housekeeping s r)) r)) r) := by
      unfold game_tick
      rw [if_pos hst]
    rw [htick]
    have e1 : (tick_housekeeping s r).lives = s.lives := (tick_housekeeping_fields s r).2.2.2.1
    have e2 : (tick_move (tick_housekeeping s r)).lives = s.lives := by
      rw [(tick_move_fields _).2.2.2.2.1, e1]
    have e3 : (tick_spawns (tick_move (tick_housekeeping s r)) r).lives = s.lives := by
      rw [(tick_spawns_fields _ r).2.2.2.1, e2]
    have e4 := (check_collections_fields (tick_spawns (tick_move (tick_housekeeping s r)) r)).2.1
    have hbound := process_powerups_lives_bound
      (tick_spawns (tick_move (tick_housekeeping s r)) r).player_lane
      (tick_spawns (tick_move (tick_housekeeping s r)) r).powerups
      (tick_spawns (tick_move (tick_housekeeping s r)) r).lives
      (tick_spawns (tick_move (tick_housekeeping s r)) r).shield_ticks
      (tick_spawns (tick_move (tick_housekeeping s r)) r).magnet_ticks
      255 (by omega) (by rw [e3]; exact h255)
    obtain ⟨hb1, hb2⟩ := hbound
    rw [← e4] at hb1 hb2
    rw [e3] at hb1
    have hres := resolve_collision_lives_cases
      (check_collections (tick_spawns (tick_move (tick_housekeeping s r)) r)) r
    have hfin : (tick_finish (resolve_collision (check_collections (tick_spawns (tick_move
        (tick_housekeeping s r)) r)) r)).lives =
        (resolve_collision (check_collections (tick_spawns (tick_move
          (tick_housekeeping s r)) r)) r).lives := by
      unfold tick_finish
      split_ifs with h
      · rfl
      · exact (level_up_fields _).2.2.1
    rw [hfin]
    rcases hres with h | h <;> rw [h] <;> unfold U8 at * <;> omega
  · have : game_tick s r = s := by
      unfold game_tick
      rw [if_neg hst]
    rw [this]
    omega

/-- C10 witness: a state whose player simultaneously overlaps two active
Standard obstacles loses exactly one life on the tick. -/
theorem C10_single_decrement_witness :
    1 ≤ RaceGameState.lives
      { hitState with obstacles := [hitSedan, hitSedan, deadObs, deadObs, deadObs] } ∧
    RaceGameState.lives
      { hitState with obstacles := [hitSedan, hitSedan, deadObs, deadObs, deadObs] } ≤
      (game_tick { hitState with obstacles := [hitSedan, hitSedan, deadObs, deadObs, deadObs] }
        rng0).lives + 1 :=
  ⟨by decide,
   C10_single_decrement
     { hitState with obstacles := [hitSedan, hitSedan, deadObs, deadObs, deadObs] }
     rng0 (by decide) (by decide)⟩

-- ── C3: lives bounds and the game-over transition ──────────────────────

/-- C3: starting a Playing tick with 1..5 lives, lives never exceed 5 (a
Refuel pickup at the cap of 5 changes nothing); whenever the tick ends
with 0 lives the session has transitioned to GameOver on that same tick,
the tick scheduler is halted, and the persisted high score equals the
current score exactly when it exceeds the stored high score. -/
theorem C3_lives_rules (s : RaceGameState) (r : TickRng)
    (hst : s.state = GameState.playing) (h1 : 1 ≤ s.lives) (h5 : s.lives ≤ 5) :
    (game_tick s r).lives ≤ 5 ∧
    ((game_tick s r).state = GameState.playing → 1 ≤ (game_tick s r).lives) ∧
    ((game_tick s r).lives = 0 →
      (game_tick s r).state = GameState.gameOver ∧
      (game_tick s r).timer_running = false ∧
      (game_tick s r).high_score =
        (if s.high_score < (game_tick s r).score then (game_tick s r).score
         else s.high_score) ∧
      (game_tick s r).persisted_high =
        (if s.high_score < (game_tick s r).score then (game_tick s r).score
         else s.persisted_high)) ∧
    (∀ (pl : Int) (p : PowerUp) (sh mg : Nat), (process_powerup pl p 5 sh mg).2.1 = 5) := by
  have hcap : ∀ (pl : Int) (p : PowerUp) (sh mg : Nat),
      (process_powerup pl p 5 sh mg).2.1 = 5 := by
    intro pl p sh mg
    rcases process_powerup_lives pl p 5 sh mg with h | ⟨h', _⟩
    · exact h
    · omega
  rw [game_tick_playing_eq s r hst]
  obtain ⟨f4state, _, f4high, f4persist⟩ := pre_collision_fields s r
  obtain ⟨hlow, hhigh⟩ := pre_collision_lives s r 5 (Nat.le_refl 5) h5
  obtain ⟨hno, hyes⟩ := resolve_collision_spec
    (check_collections (tick_spawns (tick_move (tick_housekeeping s r)) r)) r
  by_cases hcol :
      (check_collections (tick_spawns (tick_move (tick_housekeeping s r)) r)).invincible_ticks
        = 0 ∧
      (check_collections (tick_spawns (tick_move (tick_housekeeping s r)) r)).shield_ticks
        = 0 ∧
      check_collision (check_collections (tick_spawns (tick_move (tick_housekeeping s r)) r))
        = true
  · obtain ⟨flives, _, _, fscore, _, _, _, hfatal, hsafe⟩ := hyes hcol
    by_cases hz :
        ((check_collections (tick_spawns (tick_move (tick_housekeeping s r)) r)).lives + 255)
          % U8 = 0
    · obtain ⟨fstate, ftimer, fhigh, fpersist⟩ := hfatal hz
      have hfin := (tick_finish_cases
        (resolve_collision
          (check_collections (tick_spawns (tick_move (tick_housekeeping s r)) r)) r)).1 fstate
      rw [hfin]
      rw [hz] at flives
      refine ⟨by omega, ?_, ?_, hcap⟩
      · intro hp
        rw [fstate] at hp
        exact absurd hp (by intro hh; cases hh)
      · intro _
        rw [f4high] at fhigh fpersist
        rw [f4persist] at fpersist
        rw [← fscore] at fhigh fpersist
        exact ⟨fstate, ftimer, fhigh, fpersist⟩
    · obtain ⟨fstate, _, fhigh, fpersist, _⟩ := hsafe hz
      have hlive5 : (resolve_collision
          (check_collections (tick_spawns (tick_move (tick_housekeeping s r)) r)) r).lives =
          (check_collections (tick_spawns (tick_move (tick_housekeeping s r)) r)).lives - 1 := by
        rw [flives]
        unfold U8 at *
        omega
      have hne : (resolve_collision
          (check_collections (tick_spawns (tick_move (tick_housekeeping s r)) r)) r).state ≠
          GameState.gameOver := by
        rw [fstate, f4state, hst]
        intro hh
        cases hh
      have hfin := (tick_finish_cases
        (resolve_collision
          (check_collections (tick_spawns (tick_move (tick_housekeeping s r)) r)) r)).2 hne
      rw [hfin]
      have flup := level_up_fields
        (resolve_collision
          (check_collections (tick_spawns (tick_move (tick_housekeeping s r)) r)) r)
      have hnz1 : 1 ≤ (resolve_collision
          (check_collections (tick_spawns (tick_move (tick_housekeeping s r)) r)) r).lives := by
        rw [flives]
        unfold U8 at *
        omega
      refine ⟨?_, ?_, ?_, hcap⟩
      · rw [flup.2.2.1, hlive5]
        omega
      · intro _
        rw [flup.2.2.1]
        exact hnz1
      · intro hp
        rw [flup.2.2.1] at hp
        omega
  · have heq := hno hcol
    rw [heq]
    have hne : (check_collections
        (tick_spawns (tick_move (tick_housekeeping s r)) r)).state ≠ GameState.gameOver := by
      rw [f4state, hst]
      intro hh
      cases hh
    have hfin := (tick_finish_cases
      (check_collections (tick_spawns (tick_move (tick_housekeeping s r)) r))).2 hne
    rw [hfin]
    have flup := level_up_fields
      (check_collections (tick_spawns (tick_move (tick_housekeeping s r)) r))
    refine ⟨?_, ?_, ?_, hcap⟩
    · rw [flup.2.2.1]
      exact hhigh
    · intro _
      rw [flup.2.2.1]
      omega
    · intro hp
      rw [flup.2.2.1] at hp
      omega

/-- C3 witness: a Playing state with one life and a guaranteed collision
ends the tick in GameOver with the timer stopped, and the persisted high
score follows `save_high_score`'s strict comparison against the stored
best. -/
theorem C3_lives_rules_witness :
    (game_tick { hitState with lives := 1 } rng0).lives ≤ 5 ∧
    ((game_tick { hitState with lives := 1 } rng0).state = GameState.playing →
      1 ≤ (game_tick { hitState with lives := 1 } rng0).lives) ∧
    ((game_tick { hitState with lives := 1 } rng0).lives = 0 →
      (game_tick { hitState with lives := 1 } rng0).state = GameState.gameOver ∧
      (game_tick { hitState with lives := 1 } rng0).timer_running = false ∧
      (game_tick { hitState with lives := 1 } rng0).high_score =
        (if RaceGameState.high_score { hitState with lives := 1 } <
            (game_tick { hitState with lives := 1 } rng0).score
         then (game_tick { hitState with lives := 1 } rng0).score
         else RaceGameState.high_score { hitState with lives := 1 }) ∧
      (game_tick { hitState with lives := 1 } rng0).persisted_high =
        (if RaceGameState.high_score { hitState with lives := 1 } <
            (game_tick { hitState with lives := 1 } rng0).score
         then (game_tick { hitState with lives := 1 } rng0).score
         else RaceGameState.persisted_high { hitState with lives := 1 })) ∧
    (∀ (pl : Int) (p : PowerUp) (sh mg : Nat), (process_powerup pl p 5 sh mg).2.1 = 5) :=
  C3_lives_rules { hitState with lives := 1 } rng0 rfl (by decide) (by decide)

-- ── C1: level tracks score ─────────────────────────────────────────────

/-- Playing state on the verge of uint32 score wrap: level 9 and one
Standard obstacle about to retire for +10. -/
def c1state : RaceGameState :=
  { baseState with
    score := 4294967290
    level := 9
    speed := 48
    obstacles := [{ lane := 0, y := 140, alive := true, type := ObsType.sedan },
      deadObs, deadObs, deadObs, deadObs] }

/-- C1 counterexample: `score` is a `uint32_t`; when the +10 retirement
bonus wraps the score from 4294967290 to 4, the level (only ever raised)
stays 9 while `min(score / 200, 9)` drops to 0, so the claimed equality
fails after this Playing tick. -/
theorem C1_cex :
    c1state.level = min (c1state.score / 200) 9 ∧
    (game_tick c1state rng0).state = GameState.playing ∧
    (game_tick c1state rng0).score = 4 ∧
    (game_tick c1state rng0).level = 9 ∧
    (game_tick c1state rng0).level ≠ min ((game_tick c1state rng0).score / 200) 9 := by
  decide

theorem level_up_tail (t : RaceGameState) (base G : Nat)
    (hlevel : t.level = min (base / 200) 9)
    (hscore : t.score = (base + G) % U32)
    (hbase : base < U32) (hG : G ≤ 19175)
    (hmono : base ≤ (level_up t).score) :
    (level_up t).level = min ((level_up t).score / 200) 9 ∧
    min (base / 200) 9 ≤ (level_up t).level ∧ (level_up t).level ≤ 9 := by
  have hsc' : (level_up t).score = t.score := (level_up_fields t).1
  rw [hsc', hscore] at hmono
  have hnw : (base + G) % U32 = base + G := by
    unfold U32 at *
    omega
  rw [hnw] at hscore
  have h := (level_up_fields t).2.2.2.2.2
  rw [hscore, hlevel] at h
  rw [hsc', hscore, h]
  unfold U8
  refine ⟨?_, ?_, ?_⟩ <;> split_ifs <;> omega

/-- C1 (amended): provided the tick's score additions do not overflow the
uint32 accumulator (the resulting score is no smaller than before), a
Playing tick started with `level = min(score/200, 9)` reestablishes that
equality; the level is monotonically non-decreasing and bounded by 9. -/
theorem C1_level_tracks_score (s : RaceGameState) (r : TickRng)
    (hinv : s.level = min (s.score / 200) 9)
    (hsc : s.score < U32)
    (hob : s.obstacles.length ≤ 5) (hco : s.coins.length ≤ 3)
    (hplay : (game_tick s r).state = GameState.playing)
    (hmono : s.score ≤ (game_tick s r).score) :
    (game_tick s r).level = min ((game_tick s r).score / 200) 9 ∧
    s.level ≤ (game_tick s r).level ∧
    (game_tick s r).level ≤ 9 := by
  by_cases hst : s.state = GameState.playing
  · rw [game_tick_playing_eq s r hst] at hplay hmono ⊢
    obtain ⟨G, hG, hscore4⟩ := pre_collision_score s r hsc hob hco
    obtain ⟨f4state, f4level, _, _⟩ := pre_collision_fields s r
    obtain ⟨hno, hyes⟩ := resolve_collision_spec
      (check_collections (tick_spawns (tick_move (tick_housekeeping s r)) r)) r
    by_cases hcol :
        (check_collections (tick_spawns (tick_move (tick_housekeeping s r)) r)).invincible_ticks
          = 0 ∧
        (check_collections (tick_spawns (tick_move (tick_housekeeping s r)) r)).shield_ticks
          = 0 ∧
        check_collision (check_collections (tick_spawns (tick_move (tick_housekeeping s r)) r))
          = true
    · obtain ⟨_, _, _, fscore, flevel, _, _, hfatal, hsafe⟩ := hyes hcol
      by_cases hz :
          ((check_collections (tick_spawns (tick_move (tick_housekeeping s r)) r)).lives + 255)
            % U8 = 0
      · obtain ⟨fstate, _, _, _⟩ := hfatal hz
        rw [(tick_finish_cases _).1 fstate, fstate] at hplay
        exact absurd hplay (by decide)
      · obtain ⟨fstate, _, _, _, _⟩ := hsafe hz
        have hne : (resolve_collision
            (check_collections (tick_spawns (tick_move (tick_housekeeping s r)) r)) r).state ≠
            GameState.gameOver := by
          rw [fstate, f4state, hst]
          decide
        have hfin := (tick_finish_cases
          (resolve_collision
            (check_collections (tick_spawns (tick_move (tick_housekeeping s r)) r)) r)).2 hne
        rw [hfin] at hplay hmono ⊢
        have hs5score : (resolve_collision
            (check_collections (tick_spawns (tick_move (tick_housekeeping s r)) r)) r).score =
            (s.score + G) % U32 := by
          rw [fscore, hscore4]
        have hs5level : (resolve_collision
            (check_collections (tick_spawns (tick_move (tick_housekeeping s r)) r)) r).level =
            min (s.score / 200) 9 := by
          rw [flevel, f4level, hinv]
        have htail := level_up_tail
          (resolve_collision
            (check_collections (tick_spawns (tick_move (tick_housekeeping s r)) r)) r)
          s.score G hs5level hs5score hsc hG hmono
        refine ⟨htail.1, ?_, htail.2.2⟩
        rw [hinv]
        exact htail.2.1
    · have heq := hno hcol
      rw [heq] at hplay hmono ⊢
      have hne : (check_collections
          (tick_spawns (tick_move (tick_housekeeping s r)) r)).state ≠ GameState.gameOver := by
        rw [f4state, hst]
        decide
      have hfin := (tick_finish_cases
        (check_collections (tick_spawns (tick_move (tick_housekeeping s r)) r))).2 hne
      rw [hfin] at hplay hmono ⊢
      have h4level : (check_collections
          (tick_spawns (tick_move (tick_housekeeping s r)) r)).level =
          min (s.score / 200) 9 := by
        rw [f4level, hinv]
      have htail := level_up_tail
        (check_collections (tick_spawns (tick_move (tick_housekeeping s r)) r))
        s.score G h4level hscore4 hsc hG hmono
      refine ⟨htail.1, ?_, htail.2.2⟩
      rw [hinv]
      exact htail.2.1
  · have hid : game_tick s r = s := by
      unfold game_tick
      rw [if_neg hst]
    rw [hid] at hplay
    exact absurd hplay hst

/-- C1 witness: a fresh Playing state holding 100 points at level 0
keeps `level = min(score/200, 9)` across a quiet tick. -/
theorem C1_level_tracks_score_witness :
    (game_tick { baseState with score := 100 } rng0).level =
      min ((game_tick { baseState with score := 100 } rng0).score / 200) 9 ∧
    RaceGameState.level { baseState with score := 100 } ≤
      (game_tick { baseState with score := 100 } rng0).level ∧
    (game_tick { baseState with score := 100 } rng0).level ≤ 9 :=
  C1_level_tracks_score { baseState with score := 100 } rng0 (by decide) (by decide)
    (by decide) (by decide) (by decide) (by decide)

end RaceGame
